import Mathlib

/-!
Verification development for the DummyRainSwitch repository.

Each definition below is a shallow embedding of a function from the
TypeScript source.  Timestamps are modelled as `Int` (milliseconds, as
produced by `Date.now()`), precipitation rates and probabilities as `ℚ`,
and JavaScript truthiness of a numeric field as the test against `0`.
-/

/-! ### Hysteresis gate — src/util/hysteresis.ts

`makeHysteresis` closes over `state : boolean` (initially `false`) and
`lastFlip : number` (initially `0`).  `clamp` maps non-finite and negative
dwell values to `0`.  `next` bootstraps whenever `lastFlip` is falsy
(`!lastFlip`, i.e. equal to `0`), otherwise flips only when the elapsed
time since the last flip reaches the dwell of the state being left.
-/

structure HysteresisOptions where
  minOnMs : Int
  minOffMs : Int
deriving DecidableEq, Repr

/-- `clamp` from `makeHysteresis`: negative values become `0` (the
non-finite case of the source has no counterpart on `Int`). -/
def clampDwell (value : Int) : Int := max 0 value

structure HysState where
  state : Bool
  lastFlip : Int
deriving DecidableEq, Repr

/-- Closure state right after `makeHysteresis`: `state = false`, `lastFlip = 0`. -/
def hysInit : HysState := ⟨false, 0⟩

/-- `next(desired, now)` from src/util/hysteresis.ts.  The returned
`HysState` carries both the return value (`.state`) and the updated
closure state. -/
def hysNext (o : HysteresisOptions) (desired : Bool) (now : Int) (s : HysState) : HysState :=
  if s.lastFlip = 0 then
    ⟨desired, now⟩
  else if desired = s.state then
    s
  else
    let gate := if s.state then clampDwell o.minOnMs else clampDwell o.minOffMs
    if now - s.lastFlip ≥ gate then ⟨desired, now⟩ else s

/-- `reset(initial)` from src/util/hysteresis.ts: forces the state and
clears the flip clock. -/
def hysReset (initial : Bool) : HysState := ⟨initial, 0⟩

structure HysCall where
  desired : Bool
  now : Int
deriving DecidableEq, Repr

/-- Folding a call sequence through a freshly created gate. -/
def hysRun (o : HysteresisOptions) (calls : List HysCall) : HysState :=
  calls.foldl (fun s c => hysNext o c.desired c.now s) hysInit

/-- The dwell guarding the exit of the current state. -/
def hysGate (o : HysteresisOptions) (s : HysState) : Int :=
  if s.state then clampDwell o.minOnMs else clampDwell o.minOffMs

lemma hysNext_lastFlip_ne_zero (o : HysteresisOptions) (d : Bool) (t : Int)
    (s : HysState) (ht : t ≠ 0) (hs : s.lastFlip ≠ 0) :
    (hysNext o d t s).lastFlip ≠ 0 := by
  unfold hysNext
  split
  · exact ht
  · split
    · exact hs
    · dsimp only
      split
      all_goals split
      all_goals first
        | exact ht
        | exact hs

lemma hysFoldl_lastFlip_ne_zero (o : HysteresisOptions) (calls : List HysCall)
    (s : HysState) (hs : s.lastFlip ≠ 0) (ht : ∀ c ∈ calls, c.now ≠ 0) :
    (calls.foldl (fun s c => hysNext o c.desired c.now s) s).lastFlip ≠ 0 := by
  induction calls generalizing s with
  | nil => simpa using hs
  | cons c cs ih =>
    rw [List.foldl_cons]
    exact ih (hysNext o c.desired c.now s)
      (hysNext_lastFlip_ne_zero o c.desired c.now s (ht c (List.mem_cons_self c cs)) hs)
      (fun x hx => ht x (List.mem_cons_of_mem c hx))

lemma hysRun_lastFlip_ne_zero (o : HysteresisOptions) (calls : List HysCall)
    (hne : calls ≠ []) (ht : ∀ c ∈ calls, c.now ≠ 0) :
    (hysRun o calls).lastFlip ≠ 0 := by
  obtain ⟨c, cs, rfl⟩ : ∃ c cs, calls = c :: cs := by
    cases calls with
    | nil => exact absurd rfl hne
    | cons c cs => exact ⟨c, cs, rfl⟩
  rw [hysRun, List.foldl_cons]
  have hstart : (hysNext o c.desired c.now hysInit).lastFlip ≠ 0 := by
    have hc : c.now ≠ 0 := ht c (List.mem_cons_self c cs)
    simpa [hysNext, hysInit] using hc
  exact hysFoldl_lastFlip_ne_zero o cs _ hstart
    (fun x hx => ht x (List.mem_cons_of_mem c hx))

/-- Flip guard for a single step away from a state with a recorded flip. -/
lemma hysNext_flip_guard (o : HysteresisOptions) (d : Bool) (t : Int)
    (s : HysState) (hs : s.lastFlip ≠ 0)
    (hflip : (hysNext o d t s).state ≠ s.state) :
    t - s.lastFlip ≥ hysGate o s := by
  unfold hysNext at hflip
  rw [if_neg hs] at hflip
  by_cases hd : d = s.state
  · rw [if_pos hd] at hflip
    exact absurd rfl hflip
  · rw [if_neg hd] at hflip
    dsimp only at hflip
    by_cases hg : t - s.lastFlip ≥ (if s.state then clampDwell o.minOnMs else clampDwell o.minOffMs)
    · exact hg
    · rw [if_neg hg] at hflip
      exact absurd rfl hflip

/-- C1: the claim as stated is false.  With dwell `minOnMs = minOffMs = 1000`,
the call sequence `(true, 0)` then `(false, 1)` flips the stable state on the
second call although only 1 ms elapsed since the recorded flip: the first call
at `now = 0` records `lastFlip = 0`, which the gate treats as "no prior flip"
(`!lastFlip`), so the second call bootstraps again instead of debouncing. -/
theorem C1_counterexample :
    (hysRun ⟨1000, 1000⟩ [⟨true, 0⟩]).state = true ∧
    (hysRun ⟨1000, 1000⟩ [⟨true, 0⟩]).lastFlip = 0 ∧
    (hysNext ⟨1000, 1000⟩ false 1 (hysRun ⟨1000, 1000⟩ [⟨true, 0⟩])).state = false ∧
    (1 : Int) - (hysRun ⟨1000, 1000⟩ [⟨true, 0⟩]).lastFlip <
      hysGate ⟨1000, 1000⟩ (hysRun ⟨1000, 1000⟩ [⟨true, 0⟩]) := by
  decide

/-- C1 (amended): provided no call passes `now = 0` (the value the gate's
falsy test cannot distinguish from "no prior flip"), the gate never flips its
stable state on a non-first call unless the elapsed time since the last flip
is at least the dwell for the state being exited (`minOnMs` when ON,
`minOffMs` when OFF, clamped at 0); and the very first call always adopts the
desired value regardless of dwell, recording that call's time as the flip
time. -/
theorem C1_hysteresis_dwell_guard (o : HysteresisOptions) (calls : List HysCall)
    (d : Bool) (t : Int) (hne : calls ≠ []) (ht : ∀ c ∈ calls, c.now ≠ 0) :
    ((hysNext o d t hysInit).state = d ∧ (hysNext o d t hysInit).lastFlip = t) ∧
    ((hysNext o d t (hysRun o calls)).state ≠ (hysRun o calls).state →
      t - (hysRun o calls).lastFlip ≥ hysGate o (hysRun o calls)) := by
  refine ⟨⟨?_, ?_⟩, ?_⟩
  · simp [hysNext, hysInit]
  · simp [hysNext, hysInit]
  · intro hflip
    exact hysNext_flip_guard o d t (hysRun o calls)
      (hysRun_lastFlip_ne_zero o calls hne ht) hflip

theorem C1_hysteresis_dwell_guard_witness :
    ((hysNext ⟨1000, 1000⟩ false 6 hysInit).state = false ∧
      (hysNext ⟨1000, 1000⟩ false 6 hysInit).lastFlip = 6) ∧
    ((hysNext ⟨1000, 1000⟩ false 6 (hysRun ⟨1000, 1000⟩ [⟨true, 5⟩])).state ≠
        (hysRun ⟨1000, 1000⟩ [⟨true, 5⟩]).state →
      6 - (hysRun ⟨1000, 1000⟩ [⟨true, 5⟩]).lastFlip ≥
        hysGate ⟨1000, 1000⟩ (hysRun ⟨1000, 1000⟩ [⟨true, 5⟩])) :=
  C1_hysteresis_dwell_guard ⟨1000, 1000⟩ [⟨true, 5⟩] false 6 (by decide) (by decide)

/-! ### Precipitation types and the rain-now trigger — src/platform.ts (RainAccessory)

`WeatherNowcast` mirrors the interface in src/types.ts with rates and
probabilities as rationals.  `isRain` and the `rain-now` desired-signal
computation are taken verbatim from the accessory file
(`desired = isRain(weather) && weather.precipMmHr >= (thresholdMmPerHr ?? 0.05)`).
-/

inductive PrecipType
  | rain
  | snow
  | sleet
  | none
deriving DecidableEq, Repr

structure WeatherNowcast where
  ts : Int
  providerName : String
  precipMmHr : ℚ
  pop : Option ℚ
  type : PrecipType
  temperatureC : Option ℚ
deriving DecidableEq, Repr

def isRain (weather : WeatherNowcast) : Bool :=
  decide (weather.type = PrecipType.rain ∨ weather.type = PrecipType.sleet)

def DEFAULT_RAIN_THRESHOLD : ℚ := 5 / 100

/-- The `rain-now` branch of `RainAccessory.evaluate`. -/
def rainNowDesired (thresholdMmPerHr : Option ℚ) (weather : WeatherNowcast) : Bool :=
  isRain weather && decide (weather.precipMmHr ≥ thresholdMmPerHr.getD DEFAULT_RAIN_THRESHOLD)

/-! ### Quiet hours — src/platform.ts

`isWithinQuietHours` reads the wall-clock minute-of-day from `new Date(now)`;
the embedding takes that minute-of-day as its argument and keeps the
wrap-around comparison logic verbatim.  `none` models an unconfigured
schedule. -/

structure QuietSchedule where
  startMin : Nat
  endMin : Nat
deriving DecidableEq, Repr

def isWithinQuietHours (sched : Option QuietSchedule) (minutesOfDay : Nat) : Bool :=
  match sched with
  | Option.none => false
  | Option.some q =>
    if q.startMin ≤ q.endMin then
      decide (q.startMin ≤ minutesOfDay ∧ minutesOfDay < q.endMin)
    else
      decide (minutesOfDay ≥ q.startMin ∨ minutesOfDay < q.endMin)

/-- C5: for a wrapping window (start > end) a time is quiet iff its
minute-of-day is ≥ start or < end; for a non-wrapping window iff it lies in
[start, end); concretely for 22:00–06:00 (minutes 1320 and 360): 23:30
(minute 1410) is quiet, 12:00 (minute 720) is not, 05:59 (minute 359) is
quiet. -/
theorem C5_quiet_hours (q : QuietSchedule) (m : Nat) :
    (q.endMin < q.startMin →
      (isWithinQuietHours (Option.some q) m = true ↔ m ≥ q.startMin ∨ m < q.endMin)) ∧
    (q.startMin ≤ q.endMin →
      (isWithinQuietHours (Option.some q) m = true ↔ q.startMin ≤ m ∧ m < q.endMin)) ∧
    isWithinQuietHours (Option.some ⟨1320, 360⟩) 1410 = true ∧
    isWithinQuietHours (Option.some ⟨1320, 360⟩) 720 = false ∧
    isWithinQuietHours (Option.some ⟨1320, 360⟩) 359 = true := by
  refine ⟨?_, ?_, by decide, by decide, by decide⟩
  · intro h
    rw [isWithinQuietHours, if_neg (by omega)]
    simp
  · intro h
    rw [isWithinQuietHours, if_pos h]
    simp

theorem C5_quiet_hours_witness :
    (isWithinQuietHours (Option.some ⟨1320, 360⟩) 1410 = true ↔ 1410 ≥ 1320 ∨ 1410 < 360) ∧
    (isWithinQuietHours (Option.some ⟨300, 600⟩) 400 = true ↔ 300 ≤ 400 ∧ 400 < 600) :=
  ⟨(C5_quiet_hours ⟨1320, 360⟩ 1410).1 (by decide),
   (C5_quiet_hours ⟨300, 600⟩ 400).2.1 (by decide)⟩

/-- C7: with intensity threshold 0.05, the rain-now desired signal is true
for a rain nowcast at 0.06 mm/hr, false for a rain nowcast at 0.04 mm/hr,
and false for a snow nowcast at any intensity whatsoever. -/
theorem C7_rain_now_threshold :
    rainNowDesired (Option.some (5 / 100))
      ⟨0, ("P"), 6 / 100, Option.none, PrecipType.rain, Option.none⟩ = true ∧
    rainNowDesired (Option.some (5 / 100))
      ⟨0, ("P"), 4 / 100, Option.none, PrecipType.rain, Option.none⟩ = false ∧
    ∀ p : ℚ, rainNowDesired (Option.some (5 / 100))
      ⟨0, ("P"), p, Option.none, PrecipType.snow, Option.none⟩ = false := by
  refine ⟨?_, ?_, fun p => ?_⟩
  · simp [rainNowDesired, isRain]
    norm_num
  · simp [rainNowDesired, isRain]
    norm_num
  · simp [rainNowDesired, isRain]

/-- C10: a sleet nowcast is treated exactly like a rain nowcast by the
rain-now rule: for every threshold and intensity, desired is true iff the
intensity meets the effective threshold, and it coincides with the value the
rule gives a rain nowcast of the same intensity (the rain test accepts both
`rain` and `sleet`). -/
theorem C10_sleet_like_rain (th : Option ℚ) (ts : Int) (name : String)
    (pop : Option ℚ) (temp : Option ℚ) (p : ℚ) :
    rainNowDesired th ⟨ts, name, p, pop, PrecipType.sleet, temp⟩ =
      decide (p ≥ th.getD DEFAULT_RAIN_THRESHOLD) ∧
    rainNowDesired th ⟨ts, name, p, pop, PrecipType.sleet, temp⟩ =
      rainNowDesired th ⟨ts, name, p, pop, PrecipType.rain, temp⟩ := by
  constructor
  · simp [rainNowDesired, isRain]
  · simp [rainNowDesired, isRain]

/-! ### Provider chain — src/providers/provider.ts

`makeProviderChain` filters the fixed-priority provider list by
`isSupported()` and closes over `nowcastCache`, a per-rounded-lookahead
`forecastCache`, `backoffIndex` and `nextAllowedTs`.  A provider attempt is
modelled by the outcome (`Except`) each provider in priority order would
produce for that attempt; the attempt count of a call counts how many
providers were actually tried.  Every `Date.now()` read inside one call is
modelled as the same instant `now`. -/

structure ChainOpts where
  cacheTtlSeconds : Int
  retryBackoffSeconds : List Int
deriving DecidableEq, Repr

structure ChainProvider where
  name : String
  supported : Bool
deriving DecidableEq, Repr

/-- The construction-time filter of `makeProviderChain`: providers whose
`isSupported()` returns true, kept in priority order. -/
def selectProviders (all : List ChainProvider) : List ChainProvider :=
  all.filter (fun p => p.supported)

/-- `describe()`: ordered provider names joined by an arrow. -/
def describe (providers : List ChainProvider) : String :=
  String.intercalate (" -> ") (providers.map (fun p => p.name))

structure ChainState (α β : Type) where
  nowcastCache : Option (α × Int)
  forecastCache : Int → Option (β × Int)
  backoffIndex : Nat
  nextAllowedTs : Int

/-- Closure state right after `makeProviderChain`. -/
def chainInit {α β : Type} : ChainState α β :=
  ⟨Option.none, fun _ => Option.none, 0, 0⟩

/-- The provider loop of `pickProvider`: first success wins, failures update
`lastError`.  Returns the result (`error last` when the list is exhausted)
and the number of providers tried. -/
def runProviders {ε α : Type} : List (Except ε α) → Option ε → Except (Option ε) α × Nat
  | [], last => (Except.error last, 0)
  | Except.ok a :: _, _ => (Except.ok a, 1)
  | Except.error e :: rest, _ =>
    let r := runProviders rest (Option.some e)
    (r.1, r.2 + 1)

structure PickOutcome (ε α : Type) where
  res : Except (Option ε) α
  backoffIndex : Nat
  nextAllowedTs : Int
  attempts : Nat

/-- `pickProvider` from src/providers/provider.ts: on success resets
`backoffIndex` and `nextAllowedTs`; on exhaustion advances the index
(saturating at the last index of the schedule) and arms the window.  The
`getD` default is unreachable for a nonempty schedule, the only case the
theorems use (the config layer always supplies one, default
`[30, 60, 120, 300]`). -/
def pickProvider {ε α : Type} (opts : ChainOpts) (now : Int)
    (results : List (Except ε α)) (backoffIndex : Nat) : PickOutcome ε α :=
  let r := runProviders results Option.none
  match r.1 with
  | Except.ok a => ⟨Except.ok a, 0, 0, r.2⟩
  | Except.error e =>
    let idx := min (backoffIndex + 1) (opts.retryBackoffSeconds.length - 1)
    ⟨Except.error e, idx, now + (opts.retryBackoffSeconds.getD idx 0) * 1000, r.2⟩

inductive ChainError (ε : Type)
  | backoff (waitMs : Int)
  | upstream (e : Option ε)
deriving DecidableEq

/-- `isCacheValid` combined with the cached payload lookup. -/
def validEntry {γ : Type} (opts : ChainOpts) (now : Int) : Option (γ × Int) → Option γ
  | Option.none => Option.none
  | Option.some (d, ts) =>
    if now - ts < opts.cacheTtlSeconds * 1000 then Option.some d else Option.none

/-- `getNowcast(force)`: returns the call result, the updated closure state
and the number of providers attempted. -/
def getNowcast {ε α β : Type} (opts : ChainOpts) (results : List (Except ε α))
    (force : Bool) (now : Int) (s : ChainState α β) :
    Except (ChainError ε) α × ChainState α β × Nat :=
  match (if force then Option.none else validEntry opts now s.nowcastCache) with
  | Option.some d => (Except.ok d, s, 0)
  | Option.none =>
    if s.nextAllowedTs ≠ 0 ∧ now < s.nextAllowedTs then
      match validEntry opts now s.nowcastCache with
      | Option.some d => (Except.ok d, s, 0)
      | Option.none =>
        (Except.error (ChainError.backoff (max 0 (s.nextAllowedTs - now))), s, 0)
    else
      let r := pickProvider opts now results s.backoffIndex
      match r.res with
      | Except.ok d =>
        (Except.ok d,
         { s with nowcastCache := Option.some (d, now),
                  backoffIndex := r.backoffIndex, nextAllowedTs := r.nextAllowedTs },
         r.attempts)
      | Except.error e =>
        (Except.error (ChainError.upstream e),
         { s with backoffIndex := r.backoffIndex, nextAllowedTs := r.nextAllowedTs },
         r.attempts)

/-- `Math.max(5, Math.ceil(lookaheadMinutes / 5) * 5)` for integer
lookaheads: `(l + 4).ediv 5` is exactly `Math.ceil(l / 5)` on `Int`. -/
def roundedLookahead (lookaheadMinutes : Int) : Int :=
  max 5 (((lookaheadMinutes + 4).ediv 5) * 5)

/-- `getForecast(lookaheadMinutes, force)`: identical structure with the
cache keyed by the rounded lookahead. -/
def getForecast {ε α β : Type} (opts : ChainOpts) (results : List (Except ε β))
    (lookaheadMinutes : Int) (force : Bool) (now : Int) (s : ChainState α β) :
    Except (ChainError ε) β × ChainState α β × Nat :=
  let rounded := roundedLookahead lookaheadMinutes
  match (if force then Option.none else validEntry opts now (s.forecastCache rounded)) with
  | Option.some d => (Except.ok d, s, 0)
  | Option.none =>
    if s.nextAllowedTs ≠ 0 ∧ now < s.nextAllowedTs then
      match validEntry opts now (s.forecastCache rounded) with
      | Option.some d => (Except.ok d, s, 0)
      | Option.none =>
        (Except.error (ChainError.backoff (max 0 (s.nextAllowedTs - now))), s, 0)
    else
      let r := pickProvider opts now results s.backoffIndex
      match r.res with
      | Except.ok d =>
        let cache : Int → Option (β × Int) :=
          fun k => if k = rounded then Option.some (d, now) else s.forecastCache k
        (Except.ok d,
         { s with forecastCache := cache,
                  backoffIndex := r.backoffIndex, nextAllowedTs := r.nextAllowedTs },
         r.attempts)
      | Except.error e =>
        (Except.error (ChainError.upstream e),
         { s with backoffIndex := r.backoffIndex, nextAllowedTs := r.nextAllowedTs },
         r.attempts)

lemma runProviders_all_errors {ε α : Type} (es : List ε) (last : Option ε)
    (hne : es ≠ []) :
    runProviders (es.map (fun e => (Except.error e : Except ε α))) last =
      (Except.error (Option.some (es.getLast hne)), es.length) := by
  induction es generalizing last with
  | nil => exact absurd rfl hne
  | cons e es ih =>
    cases es with
    | nil => simp [runProviders]
    | cons f fs =>
      have hne2 : f :: fs ≠ [] := List.cons_ne_nil f fs
      have step :
          runProviders ((e :: f :: fs).map (fun x => (Except.error x : Except ε α))) last =
            ((runProviders ((f :: fs).map (fun x => (Except.error x : Except ε α)))
                (Option.some e)).1,
             (runProviders ((f :: fs).map (fun x => (Except.error x : Except ε α)))
                (Option.some e)).2 + 1) := rfl
      rw [step, ih (Option.some e) hne2]
      simp [List.getLast_cons]

lemma runProviders_first_success {ε α : Type} (es : List ε) (a : α)
    (rest : List (Except ε α)) (last : Option ε) :
    runProviders (es.map (fun e => (Except.error e : Except ε α)) ++ Except.ok a :: rest) last =
      (Except.ok a, es.length + 1) := by
  induction es generalizing last with
  | nil => simp [runProviders]
  | cons e es ih => simp [runProviders, ih]

/-- C2: while the shared backoff window is armed (`nextAllowedTs ≠ 0`) and
`now < nextAllowedTs`, and the relevant cache slot holds no valid entry, both
`getNowcast` and `getForecast` fail with a backoff error, attempt zero
providers and leave the chain state untouched; when an attempt exhausts every
provider (nonempty schedule), the backoff index advances by one saturating at
the schedule's last index, the window becomes `now + schedule[index] * 1000`,
and the last provider's error is propagated; any provider success resets the
index to 0 and clears the window. -/
theorem C2_shared_backoff {ε α β : Type} (opts : ChainOpts) :
    (∀ (results : List (Except ε α)) (force : Bool) (now : Int) (s : ChainState α β),
      s.nextAllowedTs ≠ 0 → now < s.nextAllowedTs →
      validEntry opts now s.nowcastCache = Option.none →
      getNowcast opts results force now s =
        (Except.error (ChainError.backoff (max 0 (s.nextAllowedTs - now))), s, 0)) ∧
    (∀ (results : List (Except ε β)) (force : Bool) (l now : Int) (s : ChainState α β),
      s.nextAllowedTs ≠ 0 → now < s.nextAllowedTs →
      validEntry opts now (s.forecastCache (roundedLookahead l)) = Option.none →
      getForecast opts results l force now s =
        (Except.error (ChainError.backoff (max 0 (s.nextAllowedTs - now))), s, 0)) ∧
    (∀ (es : List ε) (hne : es ≠ []) (force : Bool) (now : Int) (s : ChainState α β),
      opts.retryBackoffSeconds ≠ [] →
      validEntry opts now s.nowcastCache = Option.none →
      ¬(s.nextAllowedTs ≠ 0 ∧ now < s.nextAllowedTs) →
      getNowcast opts (es.map (fun e => Except.error e)) force now s =
        (Except.error (ChainError.upstream (Option.some (es.getLast hne))),
         { s with
           backoffIndex := min (s.backoffIndex + 1) (opts.retryBackoffSeconds.length - 1),
           nextAllowedTs := now + (opts.retryBackoffSeconds.getD
             (min (s.backoffIndex + 1) (opts.retryBackoffSeconds.length - 1)) 0) * 1000 },
         es.length)) ∧
    (∀ (now : Int) (results : List (Except ε α)) (idx : Nat) (a : α),
      (pickProvider opts now results idx).res = Except.ok a →
      (pickProvider opts now results idx).backoffIndex = 0 ∧
      (pickProvider opts now results idx).nextAllowedTs = 0) := by
  refine ⟨?_, ?_, ?_, ?_⟩
  · intro results force now s hnz hlt hcache
    cases force <;> simp [getNowcast, hcache, hnz, hlt]
  · intro results force l now s hnz hlt hcache
    cases force <;> simp [getForecast, hcache, hnz, hlt]
  · intro es hne force now s hsched hcache hnb
    cases force <;>
      simp [getNowcast, hcache, hnb, pickProvider, runProviders_all_errors es Option.none hne]
  · intro now results idx a hok
    unfold pickProvider at hok ⊢
    cases hr : (runProviders results Option.none).1 with
    | ok b => simp [hr] at hok ⊢
    | error e => simp [hr] at hok

theorem C2_shared_backoff_witness :
    (getNowcast (β := Nat) ⟨60, [30, 60, 120, 300]⟩ ([] : List (Except Nat Nat)) false 10
        ⟨Option.none, fun _ => Option.none, 0, 100⟩ =
      (Except.error (ChainError.backoff (max 0 (100 - 10))),
       (⟨Option.none, fun _ => Option.none, 0, 100⟩ : ChainState Nat Nat), 0)) ∧
    (getForecast (α := Nat) ⟨60, [30, 60, 120, 300]⟩ ([] : List (Except Nat Nat)) 30 false 10
        ⟨Option.none, fun _ => Option.none, 0, 100⟩ =
      (Except.error (ChainError.backoff (max 0 (100 - 10))),
       (⟨Option.none, fun _ => Option.none, 0, 100⟩ : ChainState Nat Nat), 0)) ∧
    (getNowcast (β := Nat) ⟨60, [30, 60, 120, 300]⟩ ([7].map (fun e => Except.error e)) false 0
        (chainInit : ChainState Nat Nat) =
      (Except.error (ChainError.upstream (Option.some 7)),
       { (chainInit : ChainState Nat Nat) with backoffIndex := 1, nextAllowedTs := 60000 }, 1)) ∧
    ((pickProvider ⟨60, [30, 60, 120, 300]⟩ 0 [(Except.ok 5 : Except Nat Nat)] 3).backoffIndex = 0 ∧
     (pickProvider ⟨60, [30, 60, 120, 300]⟩ 0 [(Except.ok 5 : Except Nat Nat)] 3).nextAllowedTs = 0) :=
  ⟨(C2_shared_backoff (ε := Nat) (α := Nat) (β := Nat) ⟨60, [30, 60, 120, 300]⟩).1 [] false 10
      ⟨Option.none, fun _ => Option.none, 0, 100⟩ (by decide) (by decide) rfl,
   (C2_shared_backoff (ε := Nat) (α := Nat) (β := Nat) ⟨60, [30, 60, 120, 300]⟩).2.1 [] false 30 10
      ⟨Option.none, fun _ => Option.none, 0, 100⟩ (by decide) (by decide) rfl,
   (C2_shared_backoff (ε := Nat) (α := Nat) (β := Nat) ⟨60, [30, 60, 120, 300]⟩).2.2.1 [7]
      (by decide) false 0 chainInit (by decide) rfl (by decide),
   (C2_shared_backoff (ε := Nat) (α := Nat) (β := Nat) ⟨60, [30, 60, 120, 300]⟩).2.2.2 0
      [Except.ok 5] 3 5 rfl⟩

/-- C3: with a provider chain whose first supported provider fails and the
second succeeds, `getNowcast` (on a fresh chain) returns the second
provider's result — the first failure is not surfaced —, leaves the backoff
at index 0 with no window armed, and `describe()` lists both supported
providers in priority order. -/
theorem C3_fallback_success {ε α β : Type} (opts : ChainOpts)
    (p1 p2 : ChainProvider) (h1 : p1.supported = true) (h2 : p2.supported = true)
    (e : ε) (a : α) (now : Int) :
    (getNowcast (β := β) opts [Except.error e, Except.ok a] false now chainInit).1 =
        Except.ok a ∧
    (getNowcast (β := β) opts [Except.error e, Except.ok a] false now chainInit).2.1.backoffIndex
        = 0 ∧
    (getNowcast (β := β) opts [Except.error e, Except.ok a] false now chainInit).2.1.nextAllowedTs
        = 0 ∧
    (getNowcast (β := β) opts [Except.error e, Except.ok a] false now chainInit).2.2 = 2 ∧
    selectProviders [p1, p2] = [p1, p2] ∧
    describe (selectProviders [p1, p2]) = p1.name ++ (" -> ") ++ p2.name := by
  refine ⟨?_, ?_, ?_, ?_, ?_, ?_⟩
  · simp [getNowcast, chainInit, validEntry, pickProvider, runProviders]
  · simp [getNowcast, chainInit, validEntry, pickProvider, runProviders]
  · simp [getNowcast, chainInit, validEntry, pickProvider, runProviders]
  · simp [getNowcast, chainInit, validEntry, pickProvider, runProviders]
  · simp [selectProviders, h1, h2]
  · simp [selectProviders, describe, h1, h2]
    rfl

theorem C3_fallback_success_witness :
    (getNowcast (β := Nat) ⟨60, [30, 60, 120, 300]⟩
        [(Except.error 3 : Except Nat Nat), Except.ok 11] false 0 chainInit).1 =
        Except.ok 11 ∧
    (getNowcast (β := Nat) ⟨60, [30, 60, 120, 300]⟩
        [(Except.error 3 : Except Nat Nat), Except.ok 11] false 0 chainInit).2.1.backoffIndex
        = 0 ∧
    (getNowcast (β := Nat) ⟨60, [30, 60, 120, 300]⟩
        [(Except.error 3 : Except Nat Nat), Except.ok 11] false 0 chainInit).2.1.nextAllowedTs
        = 0 ∧
    (getNowcast (β := Nat) ⟨60, [30, 60, 120, 300]⟩
        [(Except.error 3 : Except Nat Nat), Except.ok 11] false 0 chainInit).2.2 = 2 ∧
    selectProviders [⟨("P1"), true⟩, ⟨("P2"), true⟩] = [⟨("P1"), true⟩, ⟨("P2"), true⟩] ∧
    describe (selectProviders [⟨("P1"), true⟩, ⟨("P2"), true⟩]) = ("P1") ++ (" -> ") ++ ("P2") :=
  C3_fallback_success (β := Nat) ⟨60, [30, 60, 120, 300]⟩ ⟨("P1"), true⟩ ⟨("P2"), true⟩
    rfl rfl 3 11 0

/-- C6: `getForecast` rounds the requested lookahead up to the nearest
multiple of 5 (minimum 5) and keys its cache by that value: 62 and 63 both
round to 65, and after a first successful call any second call within the
cache TTL whose lookahead rounds to the same key returns the cached payload
with zero provider attempts, whatever outcome its providers would have
produced. -/
theorem C6_forecast_cache_rounding {ε α β : Type} (opts : ChainOpts)
    (d : β) (rest : List (Except ε β)) (results2 : List (Except ε β))
    (t0 t1 l1 l2 : Int)
    (httl : t1 - t0 < opts.cacheTtlSeconds * 1000)
    (hround : roundedLookahead l1 = roundedLookahead l2) :
    roundedLookahead 62 = 65 ∧ roundedLookahead 63 = 65 ∧
    (getForecast (α := α) opts (Except.ok d :: rest) l1 false t0 chainInit).1 = Except.ok d ∧
    (getForecast (α := α) opts (Except.ok d :: rest) l1 false t0 chainInit).2.2 = 1 ∧
    getForecast opts results2 l2 false t1
        (getForecast (α := α) opts (Except.ok d :: rest) l1 false t0 chainInit).2.1 =
      (Except.ok d,
       (getForecast (α := α) opts (Except.ok d :: rest) l1 false t0 chainInit).2.1, 0) := by
  refine ⟨by decide, by decide, ?_, ?_, ?_⟩
  · simp [getForecast, chainInit, validEntry, pickProvider, runProviders]
  · simp [getForecast, chainInit, validEntry, pickProvider, runProviders]
  · have hs1 : (getForecast (α := α) opts (Except.ok d :: rest) l1 false t0 chainInit).2.1 =
        { (chainInit : ChainState α β) with
          forecastCache :=
            (fun k => if k = roundedLookahead l1 then Option.some (d, t0) else Option.none),
          backoffIndex := 0, nextAllowedTs := 0 } := by
      simp [getForecast, chainInit, validEntry, pickProvider, runProviders]
    rw [hs1]
    simp [getForecast, chainInit, validEntry, ← hround, httl]

theorem C6_forecast_cache_rounding_witness :
    roundedLookahead 62 = 65 ∧ roundedLookahead 63 = 65 ∧
    (getForecast (α := Nat) ⟨60, [30, 60, 120, 300]⟩
        [(Except.ok 11 : Except Nat Nat)] 62 false 0 chainInit).1 = Except.ok 11 ∧
    (getForecast (α := Nat) ⟨60, [30, 60, 120, 300]⟩
        [(Except.ok 11 : Except Nat Nat)] 62 false 0 chainInit).2.2 = 1 ∧
    getForecast ⟨60, [30, 60, 120, 300]⟩ [(Except.error 9 : Except Nat Nat)] 63 false 1000
        (getForecast (α := Nat) ⟨60, [30, 60, 120, 300]⟩
          [(Except.ok 11 : Except Nat Nat)] 62 false 0 chainInit).2.1 =
      (Except.ok 11,
       (getForecast (α := Nat) ⟨60, [30, 60, 120, 300]⟩
         [(Except.ok 11 : Except Nat Nat)] 62 false 0 chainInit).2.1, 0) :=
  C6_forecast_cache_rounding (α := Nat) ⟨60, [30, 60, 120, 300]⟩ 11 [] [Except.error 9]
    0 1000 62 63 (by decide) (by decide)

/-! ### Manual override and evaluation cycle — src/rainAccessory.ts part of src/platform.ts

`RainAccessory` keeps `currentState`, `overrideState` (null when no
override), `overrideUntil` (0 when unarmed; truthiness modelled as `≠ 0`)
and its hysteresis gate.  `evaluate` is embedded for a `rain-now` output
(the override/quiet/gate control flow is identical for the other output
types, which only differ in how `desired` is computed); the quiet-hours
verdict for `now` is passed in as a boolean.  `handleSetOn` is the manual
toggle handler. -/

structure AccState where
  currentState : Bool
  overrideState : Option Bool
  overrideUntil : Int
  hys : HysState
deriving DecidableEq, Repr

/-- `RainAccessory.evaluate` for a `rain-now` accessory. -/
def evaluateRainNow (o : HysteresisOptions) (thresholdMmPerHr : Option ℚ) (quiet : Bool)
    (weather : WeatherNowcast) (now : Int) (s : AccState) : AccState :=
  if s.overrideUntil ≠ 0 ∧ now < s.overrideUntil ∧ s.overrideState.isSome then
    { s with currentState := s.overrideState.getD false }
  else
    let s1 :=
      if s.overrideUntil ≠ 0 ∧ now ≥ s.overrideUntil then
        { s with overrideUntil := 0, overrideState := Option.none,
                 hys := hysReset s.currentState }
      else s
    let desired := rainNowDesired thresholdMmPerHr weather
    if quiet then
      s1
    else
      let h := hysNext o desired now s1.hys
      { s1 with currentState := h.state, hys := h }

/-- `RainAccessory.handleSetOn`: `overrideMinutes` is `none` when the config
leaves it unset; the source guard `overrideMinutes && overrideMinutes > 0`
is the `0 < m` test on the present value. -/
def handleSetOn (overrideMinutes : Option Int) (value : Bool) (now : Int)
    (s : AccState) : AccState :=
  let s1 := { s with currentState := value }
  match overrideMinutes with
  | Option.some m =>
    if 0 < m then
      { s1 with overrideState := Option.some value,
                overrideUntil := now + m * 60000, hys := hysReset value }
    else
      { s1 with hys := hysReset value }
  | Option.none => { s1 with hys := hysReset value }

/-- C4: a manual toggle with a configured override duration `m > 0` at time
`t ≥ 0` adopts the toggled value, arms the override window until
`t + m·60000` and re-bootstraps the gate to the toggled value; every
evaluation strictly before the expiry adopts the override value and leaves
the gate and the window untouched; at any evaluation with `now ≥` expiry the
override is cleared and (outside quiet hours) evaluation resumes from a
freshly bootstrapped gate, which immediately adopts the computed desired
signal; a toggle with no override duration (or a non-positive one)
re-bootstraps the gate but arms no window. -/
theorem C4_manual_override (o : HysteresisOptions) (th : Option ℚ) (m t : Int)
    (v : Bool) (s : AccState) (hm : 0 < m) (ht : 0 ≤ t) :
    (handleSetOn (Option.some m) v t s =
      { s with currentState := v, overrideState := Option.some v,
               overrideUntil := t + m * 60000, hys := hysReset v }) ∧
    (∀ (now : Int) (quiet : Bool) (w : WeatherNowcast),
      now < t + m * 60000 →
      evaluateRainNow o th quiet w now (handleSetOn (Option.some m) v t s) =
        handleSetOn (Option.some m) v t s) ∧
    (∀ (now : Int) (w : WeatherNowcast),
      now ≥ t + m * 60000 →
      evaluateRainNow o th false w now (handleSetOn (Option.some m) v t s) =
        { currentState := rainNowDesired th w, overrideState := Option.none,
          overrideUntil := 0, hys := ⟨rainNowDesired th w, now⟩ }) ∧
    (handleSetOn Option.none v t s = { s with currentState := v, hys := hysReset v }) := by
  have huntil : t + m * 60000 ≠ 0 := by positivity
  refine ⟨by simp [handleSetOn, hm], ?_, ?_, rfl⟩
  · intro now quiet w hwin
    have : (handleSetOn (Option.some m) v t s).overrideUntil = t + m * 60000 := by
      simp [handleSetOn, hm]
    simp [handleSetOn, hm] at this ⊢
    simp [evaluateRainNow, huntil, hwin]
  · intro now w hexp
    have hnotlt : ¬ now < t + m * 60000 := not_lt.mpr hexp
    simp [handleSetOn, hm, evaluateRainNow, huntil, hnotlt, hexp, hysReset, hysNext]

theorem C4_manual_override_witness :
    (handleSetOn (Option.some 30) true 1000 ⟨false, Option.none, 0, hysInit⟩ =
      { currentState := true, overrideState := Option.some true,
        overrideUntil := 1000 + 30 * 60000, hys := hysReset true }) ∧
    (∀ (now : Int) (quiet : Bool) (w : WeatherNowcast),
      now < 1000 + 30 * 60000 →
      evaluateRainNow ⟨300000, 300000⟩ (Option.some (5 / 100)) quiet w now
          (handleSetOn (Option.some 30) true 1000 ⟨false, Option.none, 0, hysInit⟩) =
        handleSetOn (Option.some 30) true 1000 ⟨false, Option.none, 0, hysInit⟩) ∧
    (∀ (now : Int) (w : WeatherNowcast),
      now ≥ 1000 + 30 * 60000 →
      evaluateRainNow ⟨300000, 300000⟩ (Option.some (5 / 100)) false w now
          (handleSetOn (Option.some 30) true 1000 ⟨false, Option.none, 0, hysInit⟩) =
        { currentState := rainNowDesired (Option.some (5 / 100)) w,
          overrideState := Option.none, overrideUntil := 0,
          hys := ⟨rainNowDesired (Option.some (5 / 100)) w, now⟩ }) ∧
    (handleSetOn Option.none true 1000 ⟨false, Option.none, 0, hysInit⟩ =
      { currentState := true, overrideState := Option.none, overrideUntil := 0,
        hys := hysReset true }) :=
  C4_manual_override ⟨300000, 300000⟩ (Option.some (5 / 100)) 30 1000 true
    ⟨false, Option.none, 0, hysInit⟩ (by decide) (by decide)

/-! ### Location resolution — src/util/geo.ts

`resolveLocation` is embedded as a pure function over the loaded cache (a
map from resolution-method key to entry) and an environment carrying the
clock plus the outcome each network lookup would produce:
`Except.error ()` models a thrown fetch error, `Except.ok Option.none` an
empty or non-finite result, and `Except.ok (Option.some (lat, lon))` finite
parsed coordinates (the JSON wire format of the two services is out of
scope).  The third component of the result counts network calls made.
`Option ℚ` coordinates in the config model `isFiniteCoordinate`: `none` is
an absent or non-finite value. -/

structure LocationConfig where
  lat : Option ℚ
  lon : Option ℚ
  address : Option String
  mode : Option String
deriving DecidableEq, Repr

structure LocationCacheEntry where
  lat : ℚ
  lon : ℚ
  source : String
  ts : Int
deriving DecidableEq, Repr

structure ResolvedLocation where
  lat : ℚ
  lon : ℚ
  source : String
deriving DecidableEq, Repr

structure GeoEnv where
  now : Int
  geocodeResult : Except Unit (Option (ℚ × ℚ))
  ipResult : Except Unit (Option (ℚ × ℚ))

def cacheSet (cache : String → Option LocationCacheEntry) (key : String)
    (entry : LocationCacheEntry) : String → Option LocationCacheEntry :=
  fun q => if q = key then Option.some entry else cache q

/-- ASCII lowering, the effect of `toLowerCase()` on the source's ASCII
condition vocabulary. -/
def lowerChar (c : Char) : Char :=
  if 65 ≤ c.toNat ∧ c.toNat ≤ 90 then Char.ofNat (c.toNat + 32) else c

def toLowerAscii (s : String) : String := String.mk (s.toList.map lowerChar)

/-- Final fallback of `resolveLocation` (steps 4–5): a previously cached
`"explicit"` entry, else `null`. -/
def resolveFallback (cache : String → Option LocationCacheEntry) (calls : Nat) :
    Option ResolvedLocation × (String → Option LocationCacheEntry) × Nat :=
  match cache ("explicit") with
  | Option.some e => (Option.some ⟨e.lat, e.lon, e.source⟩, cache, calls)
  | Option.none => (Option.none, cache, calls)

/-- The IP lookup of the `"auto"` branch: on finite coordinates cache under
`"auto"` with source `"ip"`; on error or non-finite data fall through. -/
def resolveIp (env : GeoEnv) (cache : String → Option LocationCacheEntry) (calls : Nat) :
    Option ResolvedLocation × (String → Option LocationCacheEntry) × Nat :=
  match env.ipResult with
  | Except.ok (Option.some (la, lo)) =>
    (Option.some ⟨la, lo, ("ip")⟩,
     cacheSet cache ("auto") ⟨la, lo, ("ip"), env.now⟩, calls + 1)
  | _ => resolveFallback cache (calls + 1)

/-- The `"auto"` branch (step 3): taken when `cfg?.mode === 'auto'` or there
is no location config; a cached `"auto"` entry younger than 7 days wins,
otherwise the IP service is consulted. -/
def resolveAuto (env : GeoEnv) (auto : Bool) (cache : String → Option LocationCacheEntry)
    (calls : Nat) :
    Option ResolvedLocation × (String → Option LocationCacheEntry) × Nat :=
  if auto then
    match cache ("auto") with
    | Option.some e =>
      if env.now - e.ts < 7 * 24 * 60 * 60 * 1000 then
        (Option.some ⟨e.lat, e.lon, e.source⟩, cache, calls)
      else resolveIp env cache calls
    | Option.none => resolveIp env cache calls
  else resolveFallback cache calls

/-- The address branch (step 2): cached geocode under
`"addr:<lowercased address>"` wins; otherwise the geocoding service is
consulted, success caching with source `"geocode"`, failure falling
through. -/
def resolveAddress (env : GeoEnv) (addr : String) (auto : Bool)
    (cache : String → Option LocationCacheEntry) :
    Option ResolvedLocation × (String → Option LocationCacheEntry) × Nat :=
  let key := ("addr:") ++ toLowerAscii addr
  match cache key with
  | Option.some e => (Option.some ⟨e.lat, e.lon, e.source⟩, cache, 0)
  | Option.none =>
    match env.geocodeResult with
    | Except.ok (Option.some (la, lo)) =>
      (Option.some ⟨la, lo, ("geocode")⟩,
       cacheSet cache key ⟨la, lo, ("geocode"), env.now⟩, 1)
    | _ => resolveAuto env auto cache 1

/-- `resolveLocation` from src/util/geo.ts (the cache file I/O around it —
load, persist, legacy migration — is out of scope; the function receives the
loaded cache and returns the cache to be persisted). -/
def resolveLocation (env : GeoEnv) (cfg : Option LocationConfig)
    (cache : String → Option LocationCacheEntry) :
    Option ResolvedLocation × (String → Option LocationCacheEntry) × Nat :=
  let auto : Bool :=
    match cfg with
    | Option.none => true
    | Option.some c => decide (c.mode = Option.some ("auto"))
  match cfg with
  | Option.none => resolveAuto env auto cache 0
  | Option.some c =>
    match c.lat, c.lon with
    | Option.some la, Option.some lo =>
      (Option.some ⟨la, lo, ("config")⟩,
       cacheSet cache ("explicit") ⟨la, lo, ("config"), env.now⟩, 0)
    | _, _ =>
      match c.address with
      | Option.some addr =>
        if addr ≠ ("") then resolveAddress env addr auto cache
        else resolveAuto env auto cache 0
      | Option.none => resolveAuto env auto cache 0

/-- C9: a config with two finite numeric coordinates resolves immediately to
those coordinates with source `"config"`, makes zero network calls, and the
persisted cache holds the new entry under key `"explicit"` with source
`"config"` and the current timestamp. -/
theorem C9_explicit_config (env : GeoEnv) (cache : String → Option LocationCacheEntry)
    (la lo : ℚ) (addr : Option String) (mode : Option String) :
    resolveLocation env (Option.some ⟨Option.some la, Option.some lo, addr, mode⟩) cache =
      (Option.some ⟨la, lo, ("config")⟩,
       cacheSet cache ("explicit") ⟨la, lo, ("config"), env.now⟩, 0) ∧
    (cacheSet cache ("explicit") ⟨la, lo, ("config"), env.now⟩) ("explicit") =
      Option.some ⟨la, lo, ("config"), env.now⟩ := by
  exact ⟨rfl, by simp [cacheSet]⟩

/-! ### Condition-vocabulary mappings of the provider adapters

`strHas hay needle` is `hay.includes(needle)` on already-lowercased text.
`determineWeatherType` is the NWS adapter's mapping over its condition list
(src/providers/nws.ts), `resolveType` the OpenWeatherMap mapping over the
numeric precipitation buckets and the first weather entry's text
(src/providers/openweathermap.ts), and `resolvePrecipType` the WeatherKit
condition-code mapping (src/providers/weatherkit.ts).  The Tomorrow.io
adapter maps numeric codes, so no substring rule exists there. -/

def strHas (hay needle : String) : Bool :=
  decide (List.IsInfix needle.toList hay.toList)

structure NwsCondition where
  weather : Option String
  coverage : Option String
deriving DecidableEq, Repr

/-- `(condition.weather ?? condition.coverage ?? '').toLowerCase()`. -/
def nwsConditionText (c : NwsCondition) : String :=
  toLowerAscii (c.weather.getD (c.coverage.getD ("")))

/-- The scan loop of the NWS `determineWeatherType`: the first entry whose
text implies snow or rain decides. -/
def determineWeatherTypeGo : List NwsCondition → PrecipType
  | [] => PrecipType.none
  | c :: rest =>
    let w := nwsConditionText c
    if strHas w ("snow") then PrecipType.snow
    else if strHas w ("rain") || strHas w ("showers") || strHas w ("rain showers") then
      PrecipType.rain
    else determineWeatherTypeGo rest

def determineWeatherType (value : Option (List NwsCondition)) : PrecipType :=
  match value with
  | Option.none => PrecipType.none
  | Option.some conds =>
    if conds.isEmpty then PrecipType.none else determineWeatherTypeGo conds

structure OwmWeatherEntry where
  main : Option String
  description : Option String
deriving DecidableEq, Repr

/-- `(entry?.main ?? entry?.description ?? '').toLowerCase()` for the first
entry of the `weather` array. -/
def owmText (weather : List OwmWeatherEntry) : String :=
  match weather.head? with
  | Option.some entry => toLowerAscii (entry.main.getD (entry.description.getD ("")))
  | Option.none => ("")

/-- `resolveType(weather, rain, snow)` from the OpenWeatherMap adapter:
`null` precipitation buckets count as 0. -/
def resolveType (weather : List OwmWeatherEntry) (rain snow : Option ℚ) : PrecipType :=
  if (1 : ℚ) / 100 < snow.getD 0 then PrecipType.snow
  else if (1 : ℚ) / 100 < rain.getD 0 then PrecipType.rain
  else
    let text := owmText weather
    if strHas text ("snow") then PrecipType.snow
    else if strHas text ("rain") || strHas text ("drizzle") || strHas text ("shower") then
      PrecipType.rain
    else PrecipType.none

/-- `resolvePrecipType(value)` from the WeatherKit adapter (`!value` catches
the empty string as well as a missing value). -/
def resolvePrecipType (value : Option String) : PrecipType :=
  match value with
  | Option.none => PrecipType.none
  | Option.some v =>
    if v = ("") then PrecipType.none
    else
      let n := toLowerAscii v
      if strHas n ("snow") then PrecipType.snow
      else if strHas n ("sleet") || strHas n ("mix") then PrecipType.sleet
      else if strHas n ("rain") || strHas n ("drizzle") || strHas n ("showers") then
        PrecipType.rain
      else PrecipType.none

/-- C8: the claim as stated is false for the NWS adapter.  The condition
list `[{weather: "rain"}, {weather: "snow"}]` contains a snow-implying entry,
yet `determineWeatherType` maps it to rain: the scan returns at the first
entry that implies rain or snow, so an earlier rain entry wins over a later
snow entry. -/
theorem C8_counterexample :
    strHas (nwsConditionText ⟨Option.some ("snow"), Option.none⟩) ("snow") = true ∧
    determineWeatherType
        (Option.some [⟨Option.some ("rain"), Option.none⟩,
                      ⟨Option.some ("snow"), Option.none⟩]) = PrecipType.rain := by
  decide

/-- C8 (amended): within each individual condition string the
case-insensitive substring rules give snow precedence over rain/sleet — an
NWS entry whose text implies snow maps the list to snow when it is scanned
(in particular as the head entry), OpenWeatherMap maps to snow whenever the
snow bucket exceeds 0.01 or (rain bucket not exceeding 0.01) the weather
text implies snow, and any WeatherKit condition code containing "snow" maps
to snow — but the NWS list is scanned in priority order, the first entry
implying snow or rain deciding, so a rain entry earlier in the list wins
over a later snow entry. -/
theorem C8_snow_precedence :
    (∀ (c : NwsCondition) (rest : List NwsCondition),
      strHas (nwsConditionText c) ("snow") = true →
      determineWeatherTypeGo (c :: rest) = PrecipType.snow ∧
      determineWeatherType (Option.some (c :: rest)) = PrecipType.snow) ∧
    (∀ (weather : List OwmWeatherEntry) (rain snow : Option ℚ),
      ((1 : ℚ) / 100 < snow.getD 0 ∨
        (rain.getD 0 ≤ (1 : ℚ) / 100 ∧ strHas (owmText weather) ("snow") = true)) →
      resolveType weather rain snow = PrecipType.snow) ∧
    (∀ v : String, strHas (toLowerAscii v) ("snow") = true →
      resolvePrecipType (Option.some v) = PrecipType.snow) := by
  refine ⟨?_, ?_, ?_⟩
  · intro c rest hsnow
    constructor
    · simp [determineWeatherTypeGo, hsnow]
    · simp [determineWeatherType, determineWeatherTypeGo, hsnow]
  · intro weather rain snow h
    unfold resolveType
    rcases h with hamount | ⟨hrle, htext⟩
    · rw [if_pos hamount]
    · have hrlt : ¬ ((1 : ℚ) / 100 < rain.getD 0) := not_lt.mpr hrle
      by_cases hsl : (1 : ℚ) / 100 < snow.getD 0
      · rw [if_pos hsl]
      · rw [if_neg hsl, if_neg hrlt]
        simp [htext]
  · intro v hsnow
    have hv : v ≠ ("") := by
      intro hveq
      subst hveq
      simp [strHas, toLowerAscii] at hsnow
    simp [resolvePrecipType, hv, hsnow]

theorem C8_snow_precedence_witness :
    (determineWeatherTypeGo [⟨Option.some ("Heavy Rain And Snow"), Option.none⟩] =
        PrecipType.snow ∧
      determineWeatherType
        (Option.some [⟨Option.some ("Heavy Rain And Snow"), Option.none⟩]) =
        PrecipType.snow) ∧
    resolveType [⟨Option.some ("Rain and snow"), Option.none⟩] (Option.some 0) Option.none =
      PrecipType.snow ∧
    resolvePrecipType (Option.some ("Snow Showers")) = PrecipType.snow :=
  ⟨C8_snow_precedence.1 ⟨Option.some ("Heavy Rain And Snow"), Option.none⟩ [] (by decide),
   C8_snow_precedence.2.1 [⟨Option.some ("Rain and snow"), Option.none⟩]
     (Option.some 0) Option.none (Or.inr ⟨by norm_num, by decide⟩),
   C8_snow_precedence.2.2 ("Snow Showers") (by decide)⟩
